import Mathlib

/-!
Shallow embedding of `src/native/ping.c` (juitnow/juit-lib-ping), the N-API
addon that asynchronously opens a raw ICMP socket.

Modelling conventions:

* JavaScript values reaching the addon through N-API are modelled by
  `NapiValue`; strings are carried as `List Char` (the addon reads them with
  `napi_get_value_string_latin1`, modelled by `latin1Read`, which truncates
  to the destination buffer and maps every UTF-16 unit to its low byte).
* C `int` is modelled as `Int`; the explicit `uint32` conversions performed
  by `napi_create_uint32` / `napi_get_value_int32` appear as `% 2^32`
  arithmetic (`uint32ofInt`, `toInt32`).
* External libc / libuv functions are part of the environment:
  - `inet_pton` and the C `errno` variable observed after it are the fields
    of `LibC` (the model never inspects the binary address bytes it writes,
    only its result code, which is all `ping.c` reads);
  - `uv_translate_sys_error`, `uv_strerror`, `uv_err_name` are modelled
    concretely after libuv's Unix implementation: translation negates a
    positive errno, and both lookup functions fall back to the text
    `"Unknown system error <n>"` (libuv `uv__unknown_err_code`) when the
    code is not in `UV_ERRNO_MAP`; `uvName`/`uvMessage` carry a
    representative finite fragment of that map.
* N-API primitive calls that cannot execute JavaScript (`napi_typeof`,
  `napi_get_value_*`, `napi_create_*`, `napi_create_reference`,
  `napi_create_async_work`, `napi_queue_async_work`) are modelled as
  succeeding: in the Node implementation they do not carry `NAPI_PREAMBLE`,
  so they succeed even while a JavaScript exception is pending.  A thrown
  exception is therefore threaded explicitly as an `Option Thrown` value:
  `_throw_type_error` / `_throw_system_error` only record an error when none
  is pending yet (exactly as the C helpers do via
  `napi_is_exception_pending`).
* Platform constants use their Linux values: `AF_INET = 2`,
  `AF_INET6 = 10`, `IFNAMSIZ = 16`, `EAFNOSUPPORT = 97`.
-/

namespace Ping

/-- Linux value of the `AF_INET` address-family constant. -/
def AF_INET : Int := 2

/-- Linux value of the `AF_INET6` address-family constant. -/
def AF_INET6 : Int := 10

/-- Linux value of `IFNAMSIZ` (interface name size, terminator included). -/
def IFNAMSIZ : Nat := 16

/-- `IPPROTO_ICMP`. -/
def IPPROTO_ICMP : Int := 1

/-- `IPPROTO_ICMPV6`. -/
def IPPROTO_ICMPV6 : Int := 58

/-- `EAFNOSUPPORT` on Linux. -/
def EAFNOSUPPORT : Int := 97

/-- `EPERM` on Linux. -/
def EPERM : Int := 1

/-- Interpret an integer as the `uint32` that `napi_create_uint32` stores. -/
def uint32ofInt (n : Int) : Nat := (n.emod 4294967296).toNat

/-- The `int32` conversion performed by `napi_get_value_int32`. -/
def toInt32 (n : Int) : Int := ((n + 2147483648).emod 4294967296) - 2147483648

/-- A JavaScript value as the addon observes it through `napi_typeof`.
Strings carry their UTF-16 units as `List Char`. -/
inductive NapiValue where
  | null : NapiValue
  | undefined : NapiValue
  | number (n : Int) : NapiValue
  | string (s : List Char) : NapiValue
  | function : NapiValue
  | other : NapiValue
deriving DecidableEq

/-- Model of `napi_get_value_string_latin1` into a `bufsize`-byte zeroed
buffer: at most `bufsize - 1` characters are copied (each truncated to its
low byte), the rest of the buffer keeps its zero fill, and the reported size
is the number of characters copied (terminator excluded).  Returns
(buffer contents, reported size). -/
def latin1Read (s : List Char) (bufsize : Nat) : List Nat × Nat :=
  let copied := (s.map (fun c => c.toNat % 256)).take (bufsize - 1)
  (copied ++ List.replicate (bufsize - copied.length) 0, min s.length (bufsize - 1))

/-- Model of `memcpy(dst, src, n)` over byte lists: the first `n` bytes of
`dst` are replaced by the first `n` bytes of `src`.  A call with
`n > dst.length` would change the destination's length, i.e. write out of
bounds. -/
def memcpyBytes (dst src : List Nat) (n : Nat) : List Nat :=
  src.take n ++ dst.drop n

/- ===================== libuv error translation model ===================== -/

/-- libuv `uv_translate_sys_error` (Unix implementation): a positive system
errno is negated, non-positive values are already libuv codes. -/
def uv_translate_sys_error (e : Int) : Int :=
  if e ≤ 0 then e else -e

/-- Representative finite fragment of libuv's `UV_ERRNO_MAP`: error-code
names for recognized libuv codes. -/
def uvName : Int → Option String
  | -1 => some "EPERM"
  | -2 => some "ENOENT"
  | -13 => some "EACCES"
  | -22 => some "EINVAL"
  | -19 => some "ENODEV"
  | -97 => some "EAFNOSUPPORT"
  | _ => none

/-- Representative finite fragment of libuv's `UV_ERRNO_MAP`: messages for
recognized libuv codes. -/
def uvMessage : Int → Option String
  | -1 => some "operation not permitted"
  | -2 => some "no such file or directory"
  | -13 => some "permission denied"
  | -22 => some "invalid argument"
  | -19 => some "no such device"
  | -97 => some "address family not supported"
  | _ => none

/-- libuv `uv_strerror`: the mapped message, or the
`uv__unknown_err_code` fallback text for unrecognized codes. -/
def uv_strerror (err : Int) : String :=
  match uvMessage err with
  | some m => m
  | none => "Unknown system error " ++ toString err

/-- libuv `uv_err_name`: the mapped name, or the `uv__unknown_err_code`
fallback text for unrecognized codes. -/
def uv_err_name (err : Int) : String :=
  match uvName err with
  | some n => n
  | none => "Unknown system error " ++ toString err

/-- Whether libuv recognizes the (translated) error code, i.e. whether it is
in `UV_ERRNO_MAP`. -/
def uvRecognized (e : Int) : Bool :=
  (uvName (uv_translate_sys_error e)).isSome

/- =========================== _system_error ============================== -/

/-- The JavaScript error object built by `_system_error`: message, optional
`code` (first argument of `napi_create_error`), the `errno` property (stored
through `napi_create_uint32`) and the optional `syscall` property. -/
structure SysErrorValue where
  message : String
  code : Option String
  errnoProp : Nat
  syscall : Option String
deriving DecidableEq

/-- `_system_error` (ping.c lines 81-128): a nonzero errno is translated by
libuv into a message and a code name; errno `0` yields the message
`"Unknown Error"` and no code.  The raw errno is always attached as the
`errno` property, and the syscall name is attached when known. -/
def _system_error (sc : Option String) (e : Int) : SysErrorValue :=
  if e ≠ 0 then
    let uv := uv_translate_sys_error e
    { message := uv_strerror uv
      code := some (uv_err_name uv)
      errnoProp := uint32ofInt e
      syscall := sc }
  else
    { message := "Unknown Error"
      code := none
      errnoProp := uint32ofInt e
      syscall := sc }

/- ============================ _open_data ================================ -/

/-- The request record `struct _open_data` (ping.c lines 174-202).  The two
runtime handles (`__async_work`, `__callback_ref`) have no data content the
model reads, so they are not carried; the `sockaddr` union is represented by
its family tag and the size field that decides whether to bind (the binary
address bytes written by `inet_pton` are never read back by the addon). -/
structure _open_data where
  __sockaddr_size : Nat
  __sa_family : Int
  __interface_length : Nat
  /-- The `char __interface[IFNAMSIZ + 1]` buffer, as 17 bytes. -/
  __interface : List Nat
  __syscall : Option String
  __errno : Int
  __fd : Int
deriving DecidableEq

/-- The record after `bzero(&__data, sizeof(struct _open_data))`
(ping.c line 355). -/
def _open_data_zero : _open_data :=
  { __sockaddr_size := 0
    __sa_family := 0
    __interface_length := 0
    __interface := List.replicate (IFNAMSIZ + 1) 0
    __syscall := none
    __errno := 0
    __fd := 0 }

/- ======================= _open (entry point) ============================ -/

/-- An exception thrown synchronously by the entry point: either a JS
`TypeError` (`_throw_type_error`) or a thrown system error
(`_throw_system_error`, carrying syscall name and errno). -/
inductive Thrown where
  | typeError (msg : String) : Thrown
  | systemErr (sc : String) (e : Int) : Thrown
deriving DecidableEq

/-- `_throw_type_error` / `_throw_system_error` both check
`napi_is_exception_pending` first and keep an already-pending exception. -/
def throwIfNone (p : Option Thrown) (t : Thrown) : Option Thrown :=
  match p with
  | some q => some q
  | none => some t

/-- The external libc environment seen by `_open`: `inet_pton` (the model
only reads its result code, as the addon does) together with the value the
global `errno` variable would hold after a failed `inet_pton` call. -/
structure LibC where
  inet_pton : Int → List Nat → Int
  pton_errno : Int

/-- The four JavaScript arguments of `open(family, from address, source
interface, callback)`. -/
structure OpenArgs where
  family : NapiValue
  fromAddress : NapiValue
  sourceInterface : NapiValue
  callback : NapiValue
deriving DecidableEq

/-- What a call to `_open` leaves behind: the pending JavaScript exception,
if any, and the heap-allocated request record handed to
`napi_queue_async_work`, if the call reached that point.  `_open` itself
always returns `NULL` (JS `undefined`) and contains no call into the
completion handler. -/
structure OpenOutcome where
  pending : Option Thrown
  queued : Option _open_data
deriving DecidableEq

/-- The from-address block of `_open` (ping.c lines 398-435).  Returns
`Except`: `.error` models an early `return NULL`, `.ok (p, d)` falls through
to the interface block with pending exception `p`.

Faithful quirk of the source: the `__size > 40` check at line 415 throws the
`TypeError` but is NOT followed by `return NULL`, so execution continues
into `inet_pton` on the (possibly truncated) 41-character buffer; only the
`inet_pton` result decides whether the function returns early. -/
def _open_from_address (env : LibC) (fam : Int) (d : _open_data)
    (v : NapiValue) : Except OpenOutcome (Option Thrown × _open_data) :=
  match v with
  | NapiValue.null => Except.ok (none, { d with __sockaddr_size := 0 })
  | NapiValue.undefined => Except.ok (none, { d with __sockaddr_size := 0 })
  | NapiValue.string s =>
    -- char __buffer[42]: at most 41 characters are copied
    let copied := (s.map (fun c => c.toNat % 256)).take 41
    let size := min s.length 41
    let p : Option Thrown :=
      if size > 40 then
        some (Thrown.typeError "From address must be at most 40 characters long")
      else none
    -- no early return here: inet_pton runs on the buffer regardless
    let r := env.inet_pton fam copied
    if r < 0 then
      Except.error { pending := throwIfNone p (Thrown.systemErr "inet_pton" env.pton_errno)
                     queued := none }
    else if r = 0 then
      let msg : String :=
        if fam = AF_INET then "Invalid IPv4 from address"
        else if fam = AF_INET6 then "Invalid IPv6 from address"
        else "Invalid from address"
      Except.error { pending := throwIfNone p (Thrown.typeError msg), queued := none }
    else
      Except.ok (p, d)
  | _ =>
    Except.error
      { pending := some (Thrown.typeError "From address must be a string, null or undefined")
        queued := none }

/-- The source-interface block of `_open` (ping.c lines 437-462):
`char __buffer[IFNAMSIZ + 2]` limits the copy to `IFNAMSIZ + 1` characters;
a reported size above `IFNAMSIZ` throws and returns, otherwise
`memcpy(__data.__interface, __buffer, __size + 1)` stores the name and its
terminator. -/
def _open_source_interface (p : Option Thrown) (d : _open_data)
    (v : NapiValue) : Except OpenOutcome (Option Thrown × _open_data) :=
  match v with
  | NapiValue.null => Except.ok (p, { d with __interface_length := 0 })
  | NapiValue.undefined => Except.ok (p, { d with __interface_length := 0 })
  | NapiValue.string s =>
    let read := latin1Read s (IFNAMSIZ + 2)
    let buf := read.1
    let size := read.2
    if size > IFNAMSIZ then
      Except.error
        { pending := throwIfNone p
            (Thrown.typeError "Source interface must be at most 16 characters long")
          queued := none }
    else
      Except.ok (p,
        { d with
          __interface := memcpyBytes d.__interface buf (size + 1)
          __interface_length := size })
  | _ =>
    Except.error
      { pending := some (Thrown.typeError "Source interface must be a string, null or undefined")
        queued := none }

/-- `_open` (ping.c lines 347-502): validates the four arguments in order
(family, from address, source interface, callback); on the first failing
check it throws a `TypeError` and returns.  Only after every check passes is
the request record malloc'ed, copied, wrapped in async work and queued, so
`queued = some d` models "allocated and handed to the worker pool". -/
def _open (env : LibC) (a : OpenArgs) : OpenOutcome :=
  match a.family with
  | NapiValue.number n =>
    let fam := toInt32 n
    if fam = AF_INET ∨ fam = AF_INET6 then
      let d1 : _open_data :=
        { _open_data_zero with
          __sa_family := fam
          -- sizeof(struct sockaddr_in) = 16, sizeof(struct sockaddr_in6) = 28
          __sockaddr_size := if fam = AF_INET then 16 else 28 }
      match _open_from_address env fam d1 a.fromAddress with
      | Except.error out => out
      | Except.ok (p1, d2) =>
        match _open_source_interface p1 d2 a.sourceInterface with
        | Except.error out => out
        | Except.ok (p2, d3) =>
          match a.callback with
          | NapiValue.function => { pending := p2, queued := some d3 }
          | _ =>
            { pending := throwIfNone p2 (Thrown.typeError "Specified callback is not a function")
              queued := none }
    else
      { pending := some (Thrown.typeError "Socket family must be AF_INET or AF_INET6")
        queued := none }
  | _ =>
    { pending := some (Thrown.typeError "Specified socket family is not a number")
      queued := none }

/- ========================== _open_execute =============================== -/

/-- Build-time platform selection for the interface-binding strategy
(`#ifdef __linux__` / `#ifdef __APPLE__`). -/
inductive Platform where
  | linux : Platform
  | apple : Platform
deriving DecidableEq

/-- Results the operating system returns for the executor's syscalls, one
in-flight request at a time.  `socket_result` is the file descriptor (or a
negative value on failure); each `_errno` field is the value of the global
`errno` right after the corresponding call fails. -/
structure SyscallOracle where
  socket_result : Int
  socket_errno : Int
  setsockopt_result : Int
  setsockopt_errno : Int
  if_nametoindex_result : Nat
  if_nametoindex_errno : Int
  bind_result : Int
  bind_errno : Int
deriving DecidableEq

/-- Observable side effects of one `_open_execute` run: the syscalls issued,
in order, and the file descriptors passed to `close`. -/
structure ExecEffects where
  sys_trace : List String
  closed : List Int
deriving DecidableEq

/-- `_open_execute_fail` (ping.c lines 207-222): records the failing syscall
name and errno, sets `__fd = -1`, and then — because of the guard
`if (__socket > 1) return;` — only calls `close` on the saved descriptor
when it is at most 1.  (The C body stores the global `errno`; at every call
site the argument is that same `errno` value, which the model passes.) -/
def _open_execute_fail (d : _open_data) (eff : ExecEffects) (sc : String)
    (e : Int) : _open_data × ExecEffects :=
  let sock := d.__fd
  let d1 := { d with __syscall := some sc, __errno := e, __fd := -1 }
  if sock > 1 then (d1, eff)
  else
    (d1,
      { eff with
        sys_trace := eff.sys_trace ++ ["close"]
        closed := eff.closed ++ [sock] })

/-- The trailing from-address bind of `_open_execute` (ping.c lines
289-292), shared by every branch of the interface step. -/
def _open_execute_bind (o : SyscallOracle) (d : _open_data)
    (eff : ExecEffects) : _open_data × ExecEffects :=
  if d.__sockaddr_size > 0 then
    let eff1 := { eff with sys_trace := eff.sys_trace ++ ["bind"] }
    if o.bind_result ≠ 0 then _open_execute_fail d eff1 "bind" o.bind_errno
    else (d, eff1)
  else (d, eff)

/-- `_open_execute` (ping.c lines 228-293), the worker-thread body: map the
family to its ICMP protocol (an unknown family records `EAFNOSUPPORT` and
stops before any syscall), open the socket, optionally bind it to the
requested interface (Linux: one `SO_BINDTODEVICE` `setsockopt`; macOS:
`if_nametoindex` then an `IP_BOUND_IF`/`IPV6_BOUND_IF` `setsockopt`), then
optionally bind the from address. -/
def _open_execute (plat : Platform) (o : SyscallOracle) (d : _open_data) :
    _open_data × ExecEffects :=
  let eff0 : ExecEffects := { sys_trace := [], closed := [] }
  if d.__sa_family = AF_INET ∨ d.__sa_family = AF_INET6 then
    let fd := o.socket_result
    let d1 := { d with __fd := fd }
    let eff1 := { eff0 with sys_trace := eff0.sys_trace ++ ["socket"] }
    if fd < 0 then _open_execute_fail d1 eff1 "socket" o.socket_errno
    else if d1.__interface_length > 0 then
      match plat with
      | Platform.linux =>
        let eff2 := { eff1 with sys_trace := eff1.sys_trace ++ ["setsockopt"] }
        if o.setsockopt_result < 0 then
          _open_execute_fail d1 eff2 "setsockopt" o.setsockopt_errno
        else _open_execute_bind o d1 eff2
      | Platform.apple =>
        let eff2 := { eff1 with sys_trace := eff1.sys_trace ++ ["if_nametoindex"] }
        if o.if_nametoindex_result = 0 then
          _open_execute_fail d1 eff2 "if_nametoindex" o.if_nametoindex_errno
        else
          let eff3 := { eff2 with sys_trace := eff2.sys_trace ++ ["setsockopt"] }
          if o.setsockopt_result < 0 then
            _open_execute_fail d1 eff3 "setsockopt" o.setsockopt_errno
          else _open_execute_bind o d1 eff3
    else _open_execute_bind o d1 eff1
  else
    ({ d with __errno := EAFNOSUPPORT, __fd := -1 }, eff0)

/- ========================== _open_complete ============================== -/

/-- The error value placed in the callback's first argument slot: either the
generic "NAPI error opening (status=N)" error built when the async machinery
itself reports a non-ok status, or the structured `_system_error` value. -/
inductive ErrArg where
  | napiStatusError (status : Int) : ErrArg
  | sysError (v : SysErrorValue) : ErrArg
deriving DecidableEq

/-- One invocation of the JavaScript completion handler.  `arg0 = none`
models passing JS `null` in the error slot, `arg1 = none` models passing JS
`undefined` in the file-descriptor slot; a populated `arg1` carries the
`uint32` the addon builds with `napi_create_uint32`. -/
structure CallbackInvocation where
  arg0 : Option ErrArg
  arg1 : Option Nat
deriving DecidableEq

/-- The observable events of `_open_complete`, in program order. -/
inductive CompleteEvent where
  | free_record : CompleteEvent
  | invoke (inv : CallbackInvocation) : CompleteEvent
  | delete_callback_ref : CompleteEvent
  | delete_async_work : CompleteEvent
deriving DecidableEq

/-- `_open_complete` (ping.c lines 298-342), run on the origin thread after
the executor finished: it copies the heap record to the stack and `free`s it
first, then builds the two callback arguments — the generic NAPI error when
`_status != napi_ok`, else the `_system_error` value when `__fd < 0`, else
the descriptor as a `uint32` — invokes the callback once, and finally
deletes the callback reference and the async work.  `status = 0` models
`napi_ok`.  (N-API primitives are modelled as succeeding; a failing
primitive would abandon the remaining events.) -/
def _open_complete (status : Int) (d : _open_data) : List CompleteEvent :=
  let inv : CallbackInvocation :=
    if status ≠ 0 then
      { arg0 := some (ErrArg.napiStatusError status), arg1 := none }
    else if d.__fd < 0 then
      { arg0 := some (ErrArg.sysError (_system_error d.__syscall d.__errno))
        arg1 := none }
    else
      { arg0 := none, arg1 := some (uint32ofInt d.__fd) }
  [CompleteEvent.free_record, CompleteEvent.invoke inv,
   CompleteEvent.delete_callback_ref, CompleteEvent.delete_async_work]

/- ===================== async engine composition ========================= -/

/-- Modelled from the `napi_create_async_work` / `napi_queue_async_work`
contract (the Node runtime is an external collaborator here): a queued work
item has its execute callback run to completion once on a worker thread, and
afterwards its complete callback run exactly once on the origin thread with
the status of the dispatch.  There is no cancellation path in the addon, so
the status is `napi_ok` (0). -/
def runQueuedWork (plat : Platform) (o : SyscallOracle) (d : _open_data) :
    _open_data × ExecEffects × List CompleteEvent :=
  let r := _open_execute plat o d
  (r.1, r.2, _open_complete 0 r.1)

/-- The completion-handler invocations contained in an event trace. -/
def invocationsOf (tr : List CompleteEvent) : List CallbackInvocation :=
  tr.filterMap (fun e =>
    match e with
    | CompleteEvent.invoke i => some i
    | _ => none)

/-- An invocation populates exactly one of its two slots. -/
def oneSlot (i : CallbackInvocation) : Bool :=
  i.arg0.isSome ≠ i.arg1.isSome

/-- Total number of completion-handler invocations a single call to `open`
produces, given the libc environment, platform and syscall results: the
entry point `_open` contains no `napi_call_function` at all, so invocations
arise only from the completion of queued async work. -/
def openCallInvocations (env : LibC) (plat : Platform) (o : SyscallOracle)
    (a : OpenArgs) : Nat :=
  match (_open env a).queued with
  | none => 0
  | some d => (invocationsOf (runQueuedWork plat o d).2.2).length

/- ===================== shared concrete environments ===================== -/

/-- A libc environment whose `inet_pton` reports "not parseable" (result 0)
for every input. -/
def envPton0 : LibC := { inet_pton := fun _ _ => 0, pton_errno := 0 }

/-- A libc environment whose `inet_pton` reports success (result 1) for
every input. -/
def envPton1 : LibC := { inet_pton := fun _ _ => 1, pton_errno := 0 }

/-- A syscall oracle where every call succeeds and `socket` returns fd 3. -/
def oracleOk : SyscallOracle :=
  { socket_result := 3
    socket_errno := 0
    setsockopt_result := 0
    setsockopt_errno := 0
    if_nametoindex_result := 1
    if_nametoindex_errno := 0
    bind_result := 0
    bind_errno := 0 }

/-- A syscall oracle where `socket` returns fd 3 and the following
`setsockopt` fails with `EPERM`. -/
def oracleSetsockoptFails : SyscallOracle :=
  { oracleOk with setsockopt_result := -1, setsockopt_errno := EPERM }

/-- Event classifiers for `_open_complete` traces. -/
def isFree : CompleteEvent → Bool
  | CompleteEvent.free_record => true
  | _ => false

/-- Recognizes the handler-invocation event. -/
def isInvoke : CompleteEvent → Bool
  | CompleteEvent.invoke _ => true
  | _ => false

/-- Recognizes the `napi_delete_reference` event. -/
def isDeleteRef : CompleteEvent → Bool
  | CompleteEvent.delete_callback_ref => true
  | _ => false

/- ========================= helper lemmas ================================ -/

/-- `_throw_type_error` / `_throw_system_error` always leave an exception
pending. -/
theorem throwIfNone_isSome (p : Option Thrown) (t : Thrown) :
    (throwIfNone p t).isSome = true := by
  cases p <;> rfl

/-- `_open_complete` invokes the JavaScript callback exactly once, whatever
the status and record contents. -/
theorem invocationsOf_open_complete_length (st : Int) (d : _open_data) :
    (invocationsOf (_open_complete st d)).length = 1 := by
  rfl

/-- Every early-return outcome of the from-address block of `_open` has an
exception pending and nothing queued. -/
theorem from_address_error_pending (env : LibC) (fam : Int) (d : _open_data)
    (v : NapiValue) (out : OpenOutcome)
    (h : _open_from_address env fam d v = Except.error out) :
    out.pending.isSome = true ∧ out.queued = none := by
  cases v <;> simp only [_open_from_address] at h
  case null => exact absurd h (by simp)
  case undefined => exact absurd h (by simp)
  case number => cases h; exact ⟨rfl, rfl⟩
  case function => cases h; exact ⟨rfl, rfl⟩
  case other => cases h; exact ⟨rfl, rfl⟩
  case string s =>
    split at h
    · cases h; exact ⟨throwIfNone_isSome _ _, rfl⟩
    · split at h
      · cases h; exact ⟨throwIfNone_isSome _ _, rfl⟩
      · exact absurd h (by simp)

/-- Every early-return outcome of the source-interface block of `_open` has
an exception pending and nothing queued. -/
theorem source_interface_error_pending (p : Option Thrown) (d : _open_data)
    (v : NapiValue) (out : OpenOutcome)
    (h : _open_source_interface p d v = Except.error out) :
    out.pending.isSome = true ∧ out.queued = none := by
  cases v <;> simp only [_open_source_interface] at h
  case null => exact absurd h (by simp)
  case undefined => exact absurd h (by simp)
  case number => cases h; exact ⟨rfl, rfl⟩
  case function => cases h; exact ⟨rfl, rfl⟩
  case other => cases h; exact ⟨rfl, rfl⟩
  case string s =>
    split at h
    · cases h; exact ⟨throwIfNone_isSome _ _, rfl⟩
    · exact absurd h (by simp)

/-- Every call to `_open` either queues a request or leaves an exception
pending (no silent failure path). -/
theorem open_queued_or_pending (env : LibC) (a : OpenArgs) :
    ((Ping._open env a).queued.isSome || (Ping._open env a).pending.isSome) = true := by
  unfold Ping._open
  split <;> try simp
  split <;> try simp
  split
  · next out heq => simp [(from_address_error_pending _ _ _ _ _ heq).1]
  · next p1 d2 heq =>
    split
    · next out2 heq2 => simp [(source_interface_error_pending _ _ _ _ heq2).1]
    · next p2 d3 heq2 => split <;> simp [throwIfNone_isSome]

/-- The single invocation `_open_complete` performs populates exactly one of
the two callback slots. -/
theorem oneSlot_open_complete (st : Int) (d : _open_data) :
    ((invocationsOf (_open_complete st d)).all oneSlot) = true := by
  simp only [_open_complete, invocationsOf, List.filterMap, List.all]
  split
  · rfl
  · split <;> rfl

/- ============================ Claim C1 ================================== -/

/-- The `open` arguments of the C1 scenario: IPv4, no from address, source
interface `"eth0"`, a valid callback. -/
def c1_args : OpenArgs :=
  { family := NapiValue.number 2
    fromAddress := NapiValue.null
    sourceInterface := NapiValue.string "eth0".toList
    callback := NapiValue.function }

/-- Claim C1: the claim says no code path records a `Failure` outcome while
still holding a live file descriptor.  The code violates it: with the
request `open(AF_INET, null, "eth0", cb)` queued, `socket` returning fd 3
and the interface-bind `setsockopt` failing with `EPERM`,
`_open_execute_fail` records `Failure("setsockopt", EPERM)` (`__fd = -1`)
but — because of the inverted guard `if (__socket > 1) return;` at
ping.c:219 — performs no `close` at all, leaving descriptor 3 open. -/
theorem c1_failure_records_with_live_fd :
    ((Ping._open envPton0 c1_args).queued.map
      (fun d =>
        ((_open_execute Platform.linux oracleSetsockoptFails d).1.__fd,
         (_open_execute Platform.linux oracleSetsockoptFails d).1.__syscall,
         (_open_execute Platform.linux oracleSetsockoptFails d).1.__errno,
         (_open_execute Platform.linux oracleSetsockoptFails d).2.closed))) =
      some (-1, some "setsockopt", EPERM, []) ∧
    oracleSetsockoptFails.socket_result = 3 := by
  decide

/- ============================ Claim C2 ================================== -/

/-- Claim C2: every queued request leads to exactly one completion-handler
invocation (the async engine runs `_open_complete` once, and
`_open_complete` calls the callback once), and that invocation populates
exactly one of the two result slots — the error slot with the fd slot
absent, or the fd slot (a `uint32`, hence non-negative) with the error slot
absent. -/
theorem c2_handler_exactly_once_one_slot (plat : Platform) (o : SyscallOracle)
    (d : _open_data) :
    (invocationsOf (runQueuedWork plat o d).2.2).length = 1 ∧
    ((invocationsOf (runQueuedWork plat o d).2.2).all oneSlot) = true :=
  ⟨invocationsOf_open_complete_length 0 _, oneSlot_open_complete 0 _⟩

/- ============================ Claim C3 ================================== -/

/-- Claim C3: for every argument-validation failure — unsupported family
value, malformed address string (rejected by `inet_pton`), oversized
interface name, non-callable handler — `_open` throws synchronously
(`pending.isSome`) and returns without allocating or queuing the
worker-visible request record (`queued = none`); since the completion
handler is only ever invoked from the completion of queued work, it never
fires, and no worker execution starts. -/
theorem c3_validation_failures_synchronous (env : LibC) (a : OpenArgs) :
    (∀ n : Int, a.family = NapiValue.number n → toInt32 n ≠ AF_INET →
       toInt32 n ≠ AF_INET6 →
       (Ping._open env a).queued = none ∧ (Ping._open env a).pending.isSome = true) ∧
    (∀ (n : Int) (s : List Char), a.family = NapiValue.number n →
       a.fromAddress = NapiValue.string s → s.length ≤ 40 →
       env.inet_pton (toInt32 n) (s.map (fun c => c.toNat % 256)) = 0 →
       (Ping._open env a).queued = none ∧ (Ping._open env a).pending.isSome = true) ∧
    (∀ s : List Char, a.sourceInterface = NapiValue.string s →
       IFNAMSIZ < s.length →
       (Ping._open env a).queued = none ∧ (Ping._open env a).pending.isSome = true) ∧
    (a.callback ≠ NapiValue.function →
       (Ping._open env a).queued = none ∧ (Ping._open env a).pending.isSome = true) := by
  obtain ⟨af, aa, ai, ac⟩ := a
  refine ⟨?_, ?_, ?_, ?_⟩
  · -- unsupported family value
    intro n hf h1 h2
    cases hf
    simp only [Ping._open]
    rw [if_neg (by tauto)]
    exact ⟨rfl, rfl⟩
  · -- malformed from-address string
    intro n s hf ha hlen hpton
    cases hf; cases ha
    simp only [Ping._open]
    by_cases hv : toInt32 n = AF_INET ∨ toInt32 n = AF_INET6
    · rw [if_pos hv]
      simp only [_open_from_address]
      have htake : (s.map (fun c => c.toNat % 256)).take 41
          = s.map (fun c => c.toNat % 256) :=
        List.take_of_length_le (by simpa using Nat.le_trans hlen (by omega))
      rw [htake, hpton]
      have hmin : ¬ (min s.length 41 > 40) := by omega
      simp only [hmin, if_false, if_neg (by omega : ¬ ((0 : Int) < 0))]
      simp [throwIfNone_isSome]
    · rw [if_neg hv]
      exact ⟨rfl, rfl⟩
  · -- oversized interface name
    intro s hi hlen
    cases hi
    cases af <;> simp only [Ping._open] <;> try exact ⟨trivial, rfl⟩
    case number n =>
      split
      · split
        · next out heq =>
          exact ⟨(from_address_error_pending _ _ _ _ _ heq).2,
                 (from_address_error_pending _ _ _ _ _ heq).1⟩
        · next p1 d2 heq =>
          simp only [_open_source_interface]
          have hsz : (latin1Read s (IFNAMSIZ + 2)).2 > IFNAMSIZ := by
            simp only [latin1Read, IFNAMSIZ] at *
            omega
          rw [if_pos hsz]
          exact ⟨rfl, throwIfNone_isSome _ _⟩
      · exact ⟨rfl, rfl⟩
  · -- non-callable handler
    intro hc
    cases af <;> simp only [Ping._open] <;> try exact ⟨trivial, rfl⟩
    case number n =>
      split
      · split
        · next out heq =>
          exact ⟨(from_address_error_pending _ _ _ _ _ heq).2,
                 (from_address_error_pending _ _ _ _ _ heq).1⟩
        · next p1 d2 heq =>
          split
          · next out2 heq2 =>
            exact ⟨(source_interface_error_pending _ _ _ _ heq2).2,
                   (source_interface_error_pending _ _ _ _ heq2).1⟩
          · next p2 d3 heq2 =>
            cases ac
            case function => exact absurd rfl hc
            all_goals exact ⟨rfl, throwIfNone_isSome _ _⟩
      · exact ⟨rfl, rfl⟩

/-- Arguments with an unsupported family value. -/
def c3_bad_family_args : OpenArgs :=
  { family := NapiValue.number 12345
    fromAddress := NapiValue.null
    sourceInterface := NapiValue.null
    callback := NapiValue.function }

/-- Arguments with a malformed from-address string. -/
def c3_bad_address_args : OpenArgs :=
  { family := NapiValue.number 2
    fromAddress := NapiValue.string "999.999.999.999".toList
    sourceInterface := NapiValue.null
    callback := NapiValue.function }

/-- Arguments with a 17-character source-interface name. -/
def c3_bad_interface_args : OpenArgs :=
  { family := NapiValue.number 2
    fromAddress := NapiValue.null
    sourceInterface := NapiValue.string "0123456789abcdefg".toList
    callback := NapiValue.function }

/-- Arguments whose callback is not a function. -/
def c3_bad_callback_args : OpenArgs :=
  { family := NapiValue.number 2
    fromAddress := NapiValue.null
    sourceInterface := NapiValue.null
    callback := NapiValue.other }

/-- Witness for C3: each of the four validation failures at a concrete
input — `open(12345, …)`, `open(AF_INET, "999.999.999.999", …)` under an
`inet_pton` rejecting every string, a 17-character interface name, and a
non-function callback — throws synchronously and queues nothing. -/
theorem c3_validation_failures_synchronous_witness :
    ((Ping._open envPton0 c3_bad_family_args).queued = none ∧
     (Ping._open envPton0 c3_bad_family_args).pending.isSome = true) ∧
    ((Ping._open envPton0 c3_bad_address_args).queued = none ∧
     (Ping._open envPton0 c3_bad_address_args).pending.isSome = true) ∧
    ((Ping._open envPton0 c3_bad_interface_args).queued = none ∧
     (Ping._open envPton0 c3_bad_interface_args).pending.isSome = true) ∧
    ((Ping._open envPton0 c3_bad_callback_args).queued = none ∧
     (Ping._open envPton0 c3_bad_callback_args).pending.isSome = true) :=
  ⟨(c3_validation_failures_synchronous envPton0 c3_bad_family_args).1 12345 rfl
     (by decide) (by decide),
   (c3_validation_failures_synchronous envPton0 c3_bad_address_args).2.1 2
     "999.999.999.999".toList rfl rfl (by decide) (by decide),
   (c3_validation_failures_synchronous envPton0 c3_bad_interface_args).2.2.1
     "0123456789abcdefg".toList rfl (by decide),
   (c3_validation_failures_synchronous envPton0 c3_bad_callback_args).2.2.2
     (by decide)⟩
/- ============================ Claim C4 ================================== -/

/-- The `open` arguments of the C4 counterexample: an unsupported family
with otherwise valid arguments. -/
def c4_args : OpenArgs :=
  { family := NapiValue.number 7
    fromAddress := NapiValue.null
    sourceInterface := NapiValue.null
    callback := NapiValue.function }

/-- Claim C4, counterexample: the claim says the completion handler is
invoked exactly once per call to `open`, synchronously when a pre-queue
validation failure occurs.  On the validation failure `open(7, null, null,
cb)` the code throws a `TypeError`, queues nothing, and the handler is
invoked zero times — `_open` contains no synchronous invocation path at
all. -/
theorem c4_counterexample_no_sync_invocation :
    (Ping._open envPton0 c4_args).pending.isSome = true ∧
    (Ping._open envPton0 c4_args).queued = none ∧
    ¬ (openCallInvocations envPton0 Platform.linux oracleOk c4_args = 1) := by
  decide

/-- Claim C4 as amended: the completion handler is invoked exactly once per
queued request and always asynchronously (one invocation from the
completion of the queued work); for pre-queue validation failures it is
never invoked — the error is instead thrown synchronously from the entry
point, so every call either queues work or leaves an exception pending. -/
theorem c4_handler_async_exactly_once_when_queued (env : LibC)
    (plat : Platform) (o : SyscallOracle) (a : OpenArgs) :
    openCallInvocations env plat o a =
      (if (Ping._open env a).queued.isSome then 1 else 0) ∧
    ((Ping._open env a).queued.isSome || (Ping._open env a).pending.isSome) = true := by
  constructor
  · unfold openCallInvocations
    cases hq : (Ping._open env a).queued with
    | none => simp [hq]
    | some d =>
      simp only [hq, Option.isSome_some, if_true]
      exact invocationsOf_open_complete_length 0 _
  · exact open_queued_or_pending env a

/- ============================ Claim C5 ================================== -/

/-- A completed request record with a successfully opened descriptor. -/
def c5_data : _open_data := { _open_data_zero with __fd := 3 }

/-- Claim C5, counterexample: the claim says the request record is released
strictly after the completion handler has been invoked, but in
`_open_complete` the `free` of the record (ping.c:306) precedes the
`napi_call_function` invocation (ping.c:337): on a concrete completed
request the invoke event does not come before the free event. -/
theorem c5_counterexample_record_freed_before_invoke :
    ¬ ((_open_complete 0 c5_data).findIdx isInvoke <
       (_open_complete 0 c5_data).findIdx isFree) := by
  decide

/-- Claim C5 as amended: for every completed request, the request record and
the retained handler reference are each released exactly once, the record
strictly before the handler invocation (its contents having been copied to
the stack) and the handler reference strictly after it — record first,
reference second. -/
theorem c5_release_order (st : Int) (d : _open_data) :
    ((_open_complete st d).countP isFree = 1) ∧
    ((_open_complete st d).countP isDeleteRef = 1) ∧
    ((_open_complete st d).findIdx isFree = 0) ∧
    ((_open_complete st d).findIdx isInvoke = 1) ∧
    ((_open_complete st d).findIdx isDeleteRef = 2) :=
  ⟨rfl, rfl, rfl, rfl, rfl⟩

/- ============================ Claim C9 ================================== -/

/-- Claim C9, counterexample: the claim says that whenever the error code is
zero or unrecognized, the message is "Unknown Error" and no code name is
attached.  For the unrecognized nonzero code 9999, `_system_error` instead
carries libuv's fallback text "Unknown system error -9999" as the message
and attaches the same text as the code name. -/
theorem c9_counterexample_unrecognized_code :
    uvRecognized 9999 = false ∧
    ¬ ((_system_error (some "socket") 9999).message = "Unknown Error" ∧
       (_system_error (some "socket") 9999).code = none) := by
  decide

/-- Claim C9 as amended: the translated error always carries the raw numeric
error code (as its `errno` property, through the `uint32` conversion) and
the failing syscall name when known; when the error code is zero the message
is "Unknown Error" and no code name is attached; for every nonzero code —
recognized or not — the message and code name come from libuv
(`uv_strerror` / `uv_err_name` after `uv_translate_sys_error`), so an
unrecognized nonzero code gets libuv's "Unknown system error N" fallback
text in both, not "Unknown Error" with an absent code. -/
theorem c9_error_translation (sc : Option String) (e : Int) :
    (_system_error sc e).errnoProp = uint32ofInt e ∧
    (_system_error sc e).syscall = sc ∧
    (if e = 0 then
       (_system_error sc e).message = "Unknown Error" ∧
       (_system_error sc e).code = none
     else
       (_system_error sc e).message = uv_strerror (uv_translate_sys_error e) ∧
       (_system_error sc e).code = some (uv_err_name (uv_translate_sys_error e))) := by
  by_cases h : e = 0 <;> simp [_system_error, h]

/- ============================ Claim C6 ================================== -/

/-- The source-interface block never touches the `sockaddr` fields of the
request record. -/
theorem source_interface_preserves_size (p : Option Thrown) (d : _open_data)
    (v : NapiValue) (pr : Option Thrown × _open_data)
    (h : _open_source_interface p d v = Except.ok pr) :
    pr.2.__sockaddr_size = d.__sockaddr_size := by
  cases v <;> simp only [_open_source_interface] at h
  case null => cases h; rfl
  case undefined => cases h; rfl
  case number => exact absurd h (by simp)
  case function => exact absurd h (by simp)
  case other => exact absurd h (by simp)
  case string s =>
    split at h
    · exact absurd h (by simp)
    · cases h; rfl

/-- A request whose record asks for no from-address bind
(`__sockaddr_size = 0`) never reaches the `bind` syscall. -/
theorem exec_no_bind (plat : Platform) (o : SyscallOracle) (d : _open_data)
    (h : d.__sockaddr_size = 0) :
    ((_open_execute plat o d).2.sys_trace.contains "bind") = false := by
  unfold _open_execute _open_execute_bind _open_execute_fail
  dsimp only
  repeat' split
  all_goals first | rfl | omega

/-- Helper to assemble the four `open` arguments. -/
def mkArgs (fam addr iface cb : NapiValue) : OpenArgs :=
  { family := fam, fromAddress := addr, sourceInterface := iface, callback := cb }

/-- A call to `_open` whose from-address argument is `null` reduces, by the
definitional unfolding of the from-address block, to the remaining
validation pipeline over a record with `__sockaddr_size = 0`. -/
theorem open_null_addr_shape (env : LibC) (n : Int) (iface cb : NapiValue) :
    Ping._open env (mkArgs (NapiValue.number n) NapiValue.null iface cb) =
    (if toInt32 n = AF_INET ∨ toInt32 n = AF_INET6 then
       match _open_source_interface none
         { _open_data_zero with __sa_family := toInt32 n, __sockaddr_size := 0 } iface with
       | Except.error out => out
       | Except.ok (p2, d3) =>
         match cb with
         | NapiValue.function => { pending := p2, queued := some d3 }
         | _ =>
           { pending := throwIfNone p2 (Thrown.typeError "Specified callback is not a function")
             queued := none }
     else
       { pending := some (Thrown.typeError "Socket family must be AF_INET or AF_INET6")
         queued := none }) := rfl

/-- Claim C6: a present-but-empty from-address value (JS `null` or
`undefined`) is handled identically in both spellings, passes validation
(with valid remaining arguments the request is queued), and the queued
record carries `__sockaddr_size = 0`, so the executor never issues a `bind`
syscall. -/
theorem c6_empty_address_no_bind (env : LibC) (plat : Platform)
    (o : SyscallOracle) (n : Int) (iface cb : NapiValue) :
    (Ping._open env (mkArgs (NapiValue.number n) NapiValue.null iface cb) =
     Ping._open env (mkArgs (NapiValue.number n) NapiValue.undefined iface cb)) ∧
    ((toInt32 n = AF_INET ∨ toInt32 n = AF_INET6) → iface = NapiValue.null →
      cb = NapiValue.function →
      (Ping._open env (mkArgs (NapiValue.number n) NapiValue.null iface cb)).queued.isSome
        = true) ∧
    (∀ d, (Ping._open env (mkArgs (NapiValue.number n) NapiValue.null iface cb)).queued
        = some d →
      d.__sockaddr_size = 0 ∧
      ((_open_execute plat o d).2.sys_trace.contains "bind") = false) := by
  refine ⟨rfl, ?_, ?_⟩
  · intro hv hi hc
    subst hi; subst hc
    rw [open_null_addr_shape, if_pos hv]
    rfl
  · intro d hd
    rw [open_null_addr_shape] at hd
    split at hd
    · split at hd
      · next out heq =>
        exact absurd hd (by
          rw [(source_interface_error_pending _ _ _ _ heq).2]
          simp)
      · next p2 d3 heq =>
        split at hd
        · cases hd
          have hs : d.__sockaddr_size = 0 := by
            rw [source_interface_preserves_size none _ iface (p2, d) heq]
          exact ⟨hs, exec_no_bind plat o d hs⟩
        · exact absurd hd (by simp)
    · exact absurd hd (by simp)

/-- The record queued by `open(AF_INET, null, null, cb)`. -/
def c6_queued_data : _open_data :=
  { _open_data_zero with __sa_family := 2, __sockaddr_size := 0, __interface_length := 0 }

/-- Witness for C6: `open(AF_INET, null, null, cb)` is accepted and queued,
the queued record requests no from-address bind, and the executor (here
under Linux with a successful `socket` returning fd 3) never calls
`bind`. -/
theorem c6_empty_address_no_bind_witness :
    ((toInt32 2 = AF_INET ∨ toInt32 2 = AF_INET6) ∧
     (Ping._open envPton0
       (mkArgs (NapiValue.number 2) NapiValue.null NapiValue.null NapiValue.function)).queued.isSome
       = true) ∧
    ((Ping._open envPton0
       (mkArgs (NapiValue.number 2) NapiValue.null NapiValue.null NapiValue.function)).queued
       = some c6_queued_data ∧
     c6_queued_data.__sockaddr_size = 0 ∧
     ((_open_execute Platform.linux oracleOk c6_queued_data).2.sys_trace.contains "bind")
       = false) :=
  ⟨⟨by decide,
    (c6_empty_address_no_bind envPton0 Platform.linux oracleOk 2
      NapiValue.null NapiValue.function).2.1 (by decide) rfl rfl⟩,
   by decide,
   (c6_empty_address_no_bind envPton0 Platform.linux oracleOk 2
      NapiValue.null NapiValue.function).2.2 c6_queued_data (by decide)⟩

/- ========================= Claims C7 and C10 ============================ -/

/-- A call `open(AF_INET, null, "<s>", cb)` reduces, by definitional
unfolding, to the interface length check: a reported size above `IFNAMSIZ`
throws and queues nothing, otherwise the request is queued with the name
`memcpy`ed (size + 1 bytes) into the 17-byte interface buffer. -/
theorem open_iface_string_shape (env : LibC) (s : List Char) :
    Ping._open env (mkArgs (NapiValue.number 2) NapiValue.null (NapiValue.string s)
        NapiValue.function) =
    (if (latin1Read s (IFNAMSIZ + 2)).2 > IFNAMSIZ then
       { pending := some (Thrown.typeError "Source interface must be at most 16 characters long")
         queued := none }
     else
       { pending := none
         queued := some
           { _open_data_zero with
             __sa_family := 2
             __sockaddr_size := 0
             __interface := memcpyBytes _open_data_zero.__interface
               (latin1Read s (IFNAMSIZ + 2)).1 ((latin1Read s (IFNAMSIZ + 2)).2 + 1)
             __interface_length := (latin1Read s (IFNAMSIZ + 2)).2 } }) := by
  rw [open_null_addr_shape env 2 (NapiValue.string s) NapiValue.function,
      if_pos (by decide : toInt32 2 = AF_INET ∨ toInt32 2 = AF_INET6)]
  simp only [_open_source_interface]
  by_cases hc : (latin1Read s (IFNAMSIZ + 2)).2 > IFNAMSIZ
  · simp only [if_pos hc]
    rfl
  · simp only [if_neg hc]
    rfl

/-- Claim C7: a source-interface string longer than `IFNAMSIZ` is rejected
with the "interface name too long" `TypeError` and nothing is queued — so
the executor, the only source of syscalls, never runs; a name of length
exactly `IFNAMSIZ` passes validation and is queued with its full length
recorded. -/
theorem c7_interface_length_boundary (env : LibC) (s : List Char) :
    (IFNAMSIZ < s.length →
       (Ping._open env (mkArgs (NapiValue.number 2) NapiValue.null
           (NapiValue.string s) NapiValue.function)).pending
         = some (Thrown.typeError "Source interface must be at most 16 characters long") ∧
       (Ping._open env (mkArgs (NapiValue.number 2) NapiValue.null
           (NapiValue.string s) NapiValue.function)).queued = none) ∧
    (s.length = IFNAMSIZ →
       (Ping._open env (mkArgs (NapiValue.number 2) NapiValue.null
           (NapiValue.string s) NapiValue.function)).pending = none ∧
       ((Ping._open env (mkArgs (NapiValue.number 2) NapiValue.null
           (NapiValue.string s) NapiValue.function)).queued.map
         (fun d => d.__interface_length)) = some IFNAMSIZ) := by
  constructor
  · intro hlen
    have hsz : (latin1Read s (IFNAMSIZ + 2)).2 > IFNAMSIZ := by
      simp only [latin1Read, IFNAMSIZ] at hlen ⊢
      omega
    rw [open_iface_string_shape, if_pos hsz]
    exact ⟨rfl, rfl⟩
  · intro hlen
    have hsz : ¬ ((latin1Read s (IFNAMSIZ + 2)).2 > IFNAMSIZ) := by
      simp only [latin1Read, IFNAMSIZ] at hlen ⊢
      omega
    rw [open_iface_string_shape, if_neg hsz]
    refine ⟨rfl, ?_⟩
    simp only [Option.map_some]
    simp [latin1Read, hlen]

/-- Witness for C7: the 17-character name is rejected with the length
error and never queued; the 16-character name is accepted and queued with
`__interface_length = 16`. -/
theorem c7_interface_length_boundary_witness :
    (IFNAMSIZ < ("0123456789abcdefg".toList).length ∧
     (Ping._open envPton0 (mkArgs (NapiValue.number 2) NapiValue.null
         (NapiValue.string "0123456789abcdefg".toList) NapiValue.function)).pending
       = some (Thrown.typeError "Source interface must be at most 16 characters long") ∧
     (Ping._open envPton0 (mkArgs (NapiValue.number 2) NapiValue.null
         (NapiValue.string "0123456789abcdefg".toList) NapiValue.function)).queued = none) ∧
    (("0123456789abcdef".toList).length = IFNAMSIZ ∧
     (Ping._open envPton0 (mkArgs (NapiValue.number 2) NapiValue.null
         (NapiValue.string "0123456789abcdef".toList) NapiValue.function)).pending = none ∧
     ((Ping._open envPton0 (mkArgs (NapiValue.number 2) NapiValue.null
         (NapiValue.string "0123456789abcdef".toList) NapiValue.function)).queued.map
       (fun d => d.__interface_length)) = some IFNAMSIZ) :=
  ⟨⟨by decide,
    (c7_interface_length_boundary envPton0 "0123456789abcdefg".toList).1 (by decide)⟩,
   by decide,
   (c7_interface_length_boundary envPton0 "0123456789abcdef".toList).2 (by decide)⟩

/-- Claim C10: for every interface name accepted by validation (length at
most `IFNAMSIZ`), the `memcpy` into the record writes exactly `length + 1`
bytes — within the `IFNAMSIZ + 1`-byte buffer, whose length stays 17 — and
the stored buffer holds the name's bytes followed by a null terminator and
the remaining zero fill. -/
theorem c10_interface_copy_bounds (env : LibC) (s : List Char)
    (h : s.length ≤ IFNAMSIZ) :
    s.length + 1 ≤ IFNAMSIZ + 1 ∧
    ((Ping._open env (mkArgs (NapiValue.number 2) NapiValue.null
        (NapiValue.string s) NapiValue.function)).queued.map
      (fun d => d.__interface.length)) = some (IFNAMSIZ + 1) ∧
    ((Ping._open env (mkArgs (NapiValue.number 2) NapiValue.null
        (NapiValue.string s) NapiValue.function)).queued.map
      (fun d => d.__interface.take s.length))
      = some (s.map (fun c => c.toNat % 256)) ∧
    ((Ping._open env (mkArgs (NapiValue.number 2) NapiValue.null
        (NapiValue.string s) NapiValue.function)).queued.map
      (fun d => d.__interface.drop s.length))
      = some (List.replicate (IFNAMSIZ + 1 - s.length) 0) := by
  have hsz : ¬ ((latin1Read s (IFNAMSIZ + 2)).2 > IFNAMSIZ) := by
    simp only [latin1Read, IFNAMSIZ] at h ⊢
    omega
  have hmaplen : (s.map (fun c => c.toNat % 256)).length = s.length :=
    List.length_map s _
  have hiface :
      memcpyBytes _open_data_zero.__interface (latin1Read s (IFNAMSIZ + 2)).1
        ((latin1Read s (IFNAMSIZ + 2)).2 + 1)
      = s.map (fun c => c.toNat % 256) ++ List.replicate (IFNAMSIZ + 1 - s.length) 0 := by
    simp only [latin1Read, IFNAMSIZ] at h ⊢
    rw [List.take_of_length_le (by omega)]
    simp only [hmaplen]
    rw [show min s.length 17 = s.length by omega]
    unfold memcpyBytes _open_data_zero
    simp only [IFNAMSIZ]
    rw [List.take_append_eq_append_take,
        List.take_of_length_le (by omega : (s.map (fun c => c.toNat % 256)).length ≤ s.length + 1),
        List.take_replicate, List.drop_replicate]
    rw [show s.length + 1 - (s.map (fun c => c.toNat % 256)).length = 1 by omega]
    rw [show min 1 (18 - s.length) = 1 by omega]
    rw [List.append_assoc, ← List.replicate_add]
    rw [show 1 + (17 - (s.length + 1)) = 17 - s.length by omega]
  rw [open_iface_string_shape, if_neg hsz]
  have hslen : s.length + 1 ≤ IFNAMSIZ + 1 := by omega
  refine ⟨hslen, ?_, ?_, ?_⟩
  · simp only [Option.map_some', hiface, List.length_append,
      List.length_replicate, hmaplen]
    have hl : s.length + (IFNAMSIZ + 1 - s.length) = IFNAMSIZ + 1 := by
      simp only [IFNAMSIZ] at h ⊢
      omega
    rw [hl]
  · simp only [Option.map_some', hiface, List.take_left' hmaplen]
  · simp only [Option.map_some', hiface, List.drop_left' hmaplen]

/-- Witness for C10: the accepted 4-character name `"eth0"` is copied as 5
bytes into the 17-byte buffer, null-terminated, with zero fill behind it. -/
theorem c10_interface_copy_bounds_witness :
    ("eth0".toList).length ≤ IFNAMSIZ ∧
    ("eth0".toList).length + 1 ≤ IFNAMSIZ + 1 ∧
    ((Ping._open envPton0 (mkArgs (NapiValue.number 2) NapiValue.null
        (NapiValue.string "eth0".toList) NapiValue.function)).queued.map
      (fun d => d.__interface.length)) = some (IFNAMSIZ + 1) ∧
    ((Ping._open envPton0 (mkArgs (NapiValue.number 2) NapiValue.null
        (NapiValue.string "eth0".toList) NapiValue.function)).queued.map
      (fun d => d.__interface.take ("eth0".toList).length))
      = some (("eth0".toList).map (fun c => c.toNat % 256)) ∧
    ((Ping._open envPton0 (mkArgs (NapiValue.number 2) NapiValue.null
        (NapiValue.string "eth0".toList) NapiValue.function)).queued.map
      (fun d => d.__interface.drop ("eth0".toList).length))
      = some (List.replicate (IFNAMSIZ + 1 - ("eth0".toList).length) 0) :=
  ⟨by decide,
   (c10_interface_copy_bounds envPton0 "eth0".toList (by decide)).1,
   (c10_interface_copy_bounds envPton0 "eth0".toList (by decide)).2.1,
   (c10_interface_copy_bounds envPton0 "eth0".toList (by decide)).2.2.1,
   (c10_interface_copy_bounds envPton0 "eth0".toList (by decide)).2.2.2⟩

/- ============================ Claim C8 ================================== -/

/-- A 41-character textual IPv6 address (the IPv4-mapped address
`::ffff:255.255.2.5` written in full groups), longer than the 40-character
limit yet accepted by `inet_pton`. -/
def c8_addr : List Char := "0000:0000:0000:0000:0000:ffff:255.255.2.5".toList

/-- The record that `open(AF_INET6, <41-char address>, null, cb)` queues
despite the address length violation. -/
def c8_queued_data : _open_data :=
  { _open_data_zero with
    __sa_family := 10
    __sockaddr_size := 28
    __interface_length := 0 }

/-- The executor always issues the `socket` syscall for a record whose
family is supported. -/
theorem exec_contains_socket (plat : Platform) (o : SyscallOracle)
    (d : _open_data) (h : d.__sa_family = AF_INET ∨ d.__sa_family = AF_INET6) :
    ((_open_execute plat o d).2.sys_trace.contains "socket") = true := by
  unfold _open_execute _open_execute_bind _open_execute_fail
  dsimp only
  rw [if_pos h]
  repeat' split
  all_goals rfl

/-- Claim C8: the claim says every source-address string longer than 40
characters is rejected before any syscall executes and never queued.  The
code violates it: the `__size > 40` check (ping.c:415) throws the
`TypeError` but — unlike every other validation failure — is not followed by
`return NULL`, so when the truncated buffer still parses (`inet_pton`
returns 1, as it does for the valid 41-character address `c8_addr`) the
request IS queued: the call both throws the length error and hands the
record to the worker pool, whose executor then issues the `socket`
syscall. -/
theorem c8_oversized_address_gets_queued (env : LibC)
    (h : env.inet_pton AF_INET6 (c8_addr.map (fun c => c.toNat % 256)) = 1) :
    40 < c8_addr.length ∧
    (Ping._open env (mkArgs (NapiValue.number 10) (NapiValue.string c8_addr)
        NapiValue.null NapiValue.function)).pending
      = some (Thrown.typeError "From address must be at most 40 characters long") ∧
    (Ping._open env (mkArgs (NapiValue.number 10) (NapiValue.string c8_addr)
        NapiValue.null NapiValue.function)).queued = some c8_queued_data ∧
    (∀ (plat : Platform) (o : SyscallOracle),
      ((_open_execute plat o c8_queued_data).2.sys_trace.contains "socket") = true) := by
  have key : Ping._open env (mkArgs (NapiValue.number 10) (NapiValue.string c8_addr)
      NapiValue.null NapiValue.function)
      = { pending := some (Thrown.typeError "From address must be at most 40 characters long")
          queued := some c8_queued_data } := by
    have e2 : ((c8_addr.map (fun c => c.toNat % 256)).take 41)
        = c8_addr.map (fun c => c.toNat % 256) := by decide
    simp only [Ping._open, mkArgs, _open_from_address]
    rw [if_pos (by decide : toInt32 10 = AF_INET ∨ toInt32 10 = AF_INET6)]
    rw [show toInt32 10 = AF_INET6 from by decide]
    rw [e2, h]
    rw [if_neg (by norm_num : ¬ ((1 : Int) < 0)), if_neg (by norm_num : ¬ ((1 : Int) = 0))]
    decide
  refine ⟨by decide, ?_, ?_, ?_⟩
  · rw [key]
  · rw [key]
  · intro plat o
    exact exec_contains_socket plat o c8_queued_data (by decide)

/-- Witness for C8: with an `inet_pton` that accepts the (valid) truncated
buffer, the oversized-address call throws the length error AND queues the
request, and the executor issues `socket`. -/
theorem c8_oversized_address_gets_queued_witness :
    40 < c8_addr.length ∧
    (Ping._open envPton1 (mkArgs (NapiValue.number 10) (NapiValue.string c8_addr)
        NapiValue.null NapiValue.function)).pending
      = some (Thrown.typeError "From address must be at most 40 characters long") ∧
    (Ping._open envPton1 (mkArgs (NapiValue.number 10) (NapiValue.string c8_addr)
        NapiValue.null NapiValue.function)).queued = some c8_queued_data ∧
    ((_open_execute Platform.linux oracleOk c8_queued_data).2.sys_trace.contains "socket")
      = true :=
  ⟨(c8_oversized_address_gets_queued envPton1 rfl).1,
   (c8_oversized_address_gets_queued envPton1 rfl).2.1,
   (c8_oversized_address_gets_queued envPton1 rfl).2.2.1,
   (c8_oversized_address_gets_queued envPton1 rfl).2.2.2 Platform.linux oracleOk⟩

end Ping
